import Mathlib

/-!
Verification of the dataset/buffer handler of the power-grid-model data
interchange layer (`dataset_handler.hpp`), shallowly embedded in Lean.

Modelling conventions:
* `Idx` (C++ `int64_t`) is modelled as `Int`; all claims stay far away from
  the overflow boundary, so plain integer arithmetic is faithful.
* A caller-supplied data pointer is an abstract address `Option Int`
  (`none` = `nullptr`); pointer arithmetic adds element offsets.
* A caller-supplied offset-index (`indptr`) pointer is `Option (List Int)`:
  `none` = `nullptr`, `some l` = a pointer to an array whose readable
  contents are `l`.
* A C++ member function call is a function from the handler state (and the
  arguments) to the new handler state paired with an optional error; a call
  that throws still returns the state as mutated up to the throw point,
  which is exactly the observable state of the C++ object afterwards.
* Out-of-bounds `std::vector::operator[]` access is undefined behaviour,
  modelled by the distinguished result `CxxResult.ub`, which is not an
  exception.
-/

namespace PowerGridModel

/-- Errors thrown by the handler: `DatasetError` with its message, or the
`std::out_of_range` thrown by the schema lookup for an unknown component. -/
inductive CallError where
  | datasetError : String → CallError
  | outOfRange : CallError
  deriving DecidableEq, Repr

/-- Result of a C++ call that may throw or run into undefined behaviour. -/
inductive CxxResult (α : Type) where
  | ok : α → CxxResult α
  | exn : CallError → CxxResult α
  | ub : CxxResult α
  deriving DecidableEq, Repr

/-- Whether a call result is a thrown `DatasetError`. -/
def CxxResult.isDatasetError {α : Type} : CxxResult α → Bool
  | .exn (.datasetError _) => true
  | _ => false

/-- `ComponentInfo` of `dataset_handler.hpp`: the `MetaComponent` pointer is
identified with the component's (unique) name. -/
structure ComponentInfo where
  component : String
  elements_per_scenario : Int
  total_elements : Int
  deriving DecidableEq, Repr

instance : Inhabited ComponentInfo := ⟨⟨"", 0, 0⟩⟩

/-- `DatasetHandler::Buffer`: a type-erased data pointer and the stored
offset-index span (the span's readable contents; `none` = empty span). -/
structure Buffer where
  data : Option Int
  indptr : Option (List Int)
  deriving DecidableEq, Repr

instance : Inhabited Buffer := ⟨⟨none, none⟩⟩

/-- State of a `DatasetHandler`: the description plus the buffer vector.
`dataset` is the list of component names known to the dataset kind. -/
structure DatasetHandler where
  is_batch : Bool
  batch_size : Int
  dataset : List String
  component_info : List ComponentInfo
  buffers : List Buffer
  deriving DecidableEq, Repr

/-- `DatasetDescription` as returned by `get_description()`. -/
structure DatasetDescription where
  is_batch : Bool
  batch_size : Int
  dataset : List String
  component_info : List ComponentInfo
  deriving DecidableEq, Repr

namespace DatasetHandler

/-- `get_description()`. -/
def get_description (h : DatasetHandler) : DatasetDescription :=
  ⟨h.is_batch, h.batch_size, h.dataset, h.component_info⟩

/-- `n_components()` (the size of the buffer vector). -/
def n_components (h : DatasetHandler) : Nat := h.buffers.length

/-- Position of the named component in the `component_info` vector, if
attached (the `std::find_if` of `find_component`). -/
def find_component? (h : DatasetHandler) (c : String) : Option Nat :=
  h.component_info.findIdx? (fun ci => ci.component == c)

/-- `find_component(component)` with `throw_not_found = false`: the
attach-order index, or the sentinel `-1`. -/
def find_component (h : DatasetHandler) (c : String) : Int :=
  match find_component? h c with
  | some i => i
  | none => -1

/-- `find_component(component, true)`: throws `DatasetError` when absent. -/
def find_component_or_throw (h : DatasetHandler) (c : String) : CxxResult Int :=
  match find_component? h c with
  | some i => .ok i
  | none => .exn (.datasetError "Cannot find component!\n")

/-- `get_component_info(std::string_view)`: indexes `component_info` with
`find_component(component, true)`, so an absent name throws. -/
def get_component_info_name (h : DatasetHandler) (c : String) : CxxResult ComponentInfo :=
  match find_component? h c with
  | some i => .ok (h.component_info.getD i default)
  | none => .exn (.datasetError "Cannot find component!\n")

/-- `get_component_info(Idx i)`: plain unchecked `component_info[i]`; an
out-of-range index is undefined behaviour, not an exception. -/
def get_component_info_at (h : DatasetHandler) (i : Int) : CxxResult ComponentInfo :=
  if 0 ≤ i ∧ i.toNat < h.component_info.length then
    .ok (h.component_info.getD i.toNat default)
  else
    .ub

/-- `check_uniform_integrity`. -/
def check_uniform_integrity (bs eps total : Int) : Option CallError :=
  if 0 ≤ eps ∧ eps * bs ≠ total then
    some (.datasetError
      "For a uniform buffer, totoal_element should be equal to elements_per_scenario * batch_size !\n")
  else none

/-- `check_non_uniform_integrity<check_indptr_content>`. -/
def check_non_uniform_integrity (checkContent : Bool) (bs eps total : Int)
    (indptr : Option (List Int)) : Option CallError :=
  if eps < 0 then
    match indptr with
    | none => some (.datasetError "For a non-uniform buffer, indptr should be supplied !\n")
    | some l =>
      if checkContent ∧ (l.getD 0 0 ≠ 0 ∨ l.getD bs.toNat 0 ≠ total) then
        some (.datasetError
          "For a non-uniform buffer, indptr should begin with 0 and end with total_elements !\n")
      else none
  else
    match indptr with
    | some _ => some (.datasetError "For a uniform buffer, indptr should be nullptr !\n")
    | none => none

/-- `add_component_info`: the duplicate check comes first; the component
lookup (`get_component`, which throws `std::out_of_range` for an unknown
name) happens while constructing the pushed entry, hence before any
mutation; the uniform-integrity check runs only after both push_backs. -/
def add_component_info (h : DatasetHandler) (c : String) (eps total : Int) :
    DatasetHandler × Option CallError :=
  if 0 ≤ find_component h c then
    (h, some (.datasetError "Cannot have duplicated components!\n"))
  else if c ∈ h.dataset then
    let h' : DatasetHandler :=
      { h with
        component_info := h.component_info ++ [⟨c, eps, total⟩]
        buffers := h.buffers ++ [⟨none, none⟩] }
    (h', check_uniform_integrity h.batch_size eps total)
  else
    (h, some .outOfRange)

/-- The stored offset-index span `{indptr, batch_size() + 1}`. -/
def stored_indptr (bs : Int) (indptr : Option (List Int)) : Option (List Int) :=
  indptr.map (fun l => l.take (bs.toNat + 1))

/-- `add_buffer`: `add_component_info`, then the content-checking
non-uniform integrity check, then assignment into `buffers_.back()`. -/
def add_buffer (h : DatasetHandler) (c : String) (eps total : Int)
    (indptr : Option (List Int)) (data : Option Int) :
    DatasetHandler × Option CallError :=
  match add_component_info h c eps total with
  | (h1, some e) => (h1, some e)
  | (h1, none) =>
    match check_non_uniform_integrity true h.batch_size eps total indptr with
    | some e => (h1, some e)
    | none =>
      ({ h1 with buffers := h1.buffers.dropLast ++ [⟨data, stored_indptr h.batch_size indptr⟩] },
       none)

/-- `set_buffer` (Writable variant): looks up the component (throwing when
absent), re-checks only presence/absence of the offset index
(`check_non_uniform_integrity<false>`), then assigns the pointers. -/
def set_buffer (h : DatasetHandler) (c : String) (indptr : Option (List Int))
    (data : Option Int) : DatasetHandler × Option CallError :=
  match find_component? h c with
  | none => (h, some (.datasetError "Cannot find component!\n"))
  | some idx =>
    let info := h.component_info.getD idx default
    match check_non_uniform_integrity false h.batch_size info.elements_per_scenario
        info.total_elements indptr with
    | some e => (h, some e)
    | none =>
      ({ h with buffers := h.buffers.set idx ⟨data, stored_indptr h.batch_size indptr⟩ }, none)

/-- The handler state pushed by `add_component_info` before its integrity
check runs. -/
def push_component (h : DatasetHandler) (c : String) (eps total : Int) : DatasetHandler :=
  { h with
    component_info := h.component_info ++ [⟨c, eps, total⟩]
    buffers := h.buffers ++ [⟨none, none⟩] }

/-- Modelled from the spec: `get_buffer_span<C>(s)` (implemented in
`dataset.hpp`, which is outside the source excerpt; only its tests are
present). For a uniform component with `elements_per_scenario = e` it is the
slice of the component's data array starting at element offset `s*e` with
length `e`; for a ragged component with stored offset index `idx` it is the
slice `[idx[s], idx[s+1])`. Represented as (start element offset, length). -/
def get_buffer_span (h : DatasetHandler) (i s : Nat) : Int × Int :=
  if 0 ≤ (h.component_info.getD i default).elements_per_scenario then
    ((s : Int) * (h.component_info.getD i default).elements_per_scenario,
     (h.component_info.getD i default).elements_per_scenario)
  else
    match (h.buffers.getD i default).indptr with
    | some l => (l.getD s 0, l.getD (s + 1) 0 - l.getD s 0)
    | none => (0, 0)

/-- Modelled from the spec: `get_buffer_span_all_scenarios<C>()` (in
`dataset.hpp`, outside the source excerpt) produces, in scenario order, the
ordered sequence of per-scenario spans, of length `batch_size`; the spec
defines it as equivalent to calling the single-scenario accessor for every
index. -/
def get_buffer_span_all_scenarios (h : DatasetHandler) (i : Nat) : List (Int × Int) :=
  (List.range h.batch_size.toNat).map (fun s => get_buffer_span h i s)

/-- Absolute start address of a per-scenario span: the component's data
pointer plus the span's element offset (`none` when the data pointer is
null). -/
def span_start (h : DatasetHandler) (i s : Nat) : Option Int :=
  ((h.buffers.getD i default).data).map (fun b => b + (get_buffer_span h i s).1)

/-- Modelled from the spec: `get_individual_scenario(s)` (in `dataset.hpp`,
outside the source excerpt) returns a new non-batch (`batch_size = 1`)
handler sharing the same underlying buffer memory, where every attached
component's span is pre-sliced to scenario `s`: its data pointer is the
source pointer advanced to the span's start, and its cardinality is the
span's length (uniform, `elements_per_scenario = total_elements`). -/
def get_individual_scenario (h : DatasetHandler) (s : Nat) : DatasetHandler :=
  { is_batch := false
    batch_size := 1
    dataset := h.dataset
    component_info :=
      (List.range h.component_info.length).map (fun i =>
        { component := (h.component_info.getD i default).component
          elements_per_scenario := (get_buffer_span h i s).2
          total_elements := (get_buffer_span h i s).2 })
    buffers :=
      (List.range h.component_info.length).map (fun i =>
        { data := (h.buffers.getD i default).data.map (fun b => b + (get_buffer_span h i s).1)
          indptr := none }) }

end DatasetHandler

/-! ## Columnar overlay (range object)

The range object is implemented in `dataset.hpp`/`buffer.hpp`, outside the
source excerpt; only its tests are present, so it is modelled from the
spec. -/

/-- A scalar attribute value; `none` is the logical not-a-value. -/
abbrev AttrValue := Option Int

/-- Modelled from the spec: the columnar overlay presents independently
allocated per-attribute arrays as one random-access sequence of `n` logical
records. `attributes` is the logical record type's attribute list;
`arrays` maps each *attached* attribute to its column. -/
structure RangeObject where
  n : Nat
  attributes : List String
  arrays : List (String × List AttrValue)
  deriving DecidableEq, Repr

namespace RangeObject

/-- Whether an attribute is attached as a column. -/
def attached (ro : RangeObject) (a : String) : Bool :=
  (ro.arrays.lookup a).isSome

/-- Well-formedness enforced by the dataset/buffer handler: every column has
the common length `n`. -/
def WF (ro : RangeObject) : Prop :=
  ∀ p ∈ ro.arrays, p.2.length = ro.n

/-- Modelled from the spec: converting the Proxy at index `i` to the logical
record type gathers each present field from `array[attribute][i]`; a field
whose attribute is absent from the array list reads as not-a-value. -/
def read_record (ro : RangeObject) (i : Nat) (a : String) : AttrValue :=
  match ro.arrays.lookup a with
  | some col => col.getD i none
  | none => none

/-- Modelled from the spec: assigning a logical record value to the
(mutable) Proxy at index `i` scatters each present field to
`array[attribute][i]`, leaving absent fields untouched. A record value is a
map from attribute name to value. -/
def write_record (ro : RangeObject) (i : Nat) (v : String → AttrValue) : RangeObject :=
  { ro with arrays := ro.arrays.map (fun p => (p.1, p.2.set i (v p.1))) }

end RangeObject

/-- Test fixture: a batch handler (batch size 2) over a dataset kind with
components "A" and "B", nothing attached yet. -/
def hAB : DatasetHandler := ⟨true, 2, ["A", "B"], [], []⟩

/-- Test fixture: an overlay of three logical records over the attribute
list of the test component, with columns attached for "a1" and "id" but not
for "a0". -/
def roAB : RangeObject :=
  ⟨3, ["id", "a0", "a1"],
   [("a1", [some 0, some 1, none]), ("id", [some 0, some 1, some 2])]⟩

/-- Test fixture: a logical record value with `id = 20`, `a0 = -10`, and
`a1` not-a-value. -/
def vFix : String → AttrValue := fun a =>
  if a = "id" then some 20 else if a = "a0" then some (-10) else none

/-- Test fixture: the batch handler with the uniform component "A"
(2 elements per scenario, data pointer 100) and the ragged component "B"
(offset index `[0, 3, 5]`, data pointer 200) attached. -/
def hBatch : DatasetHandler :=
  (DatasetHandler.add_buffer (DatasetHandler.add_buffer hAB "A" 2 4 none (some 100)).1
    "B" (-1) 5 (some [0, 3, 5]) (some 200)).1

/-! ## Helper lemmas about the handler operations -/

namespace DatasetHandler

theorem find_component_nonneg_iff (h : DatasetHandler) (c : String) :
    0 ≤ find_component h c ↔ (find_component? h c).isSome := by
  unfold find_component
  cases hf : find_component? h c with
  | none => simp
  | some i => simp [Int.ofNat_nonneg]

theorem find_component_eq_neg_one_iff (h : DatasetHandler) (c : String) :
    find_component h c = -1 ↔ find_component? h c = none := by
  unfold find_component
  cases hf : find_component? h c with
  | none => simp
  | some i =>
    show ((i : Int) = -1) ↔ some i = none
    constructor
    · intro hh
      exfalso
      omega
    · intro hh
      simp at hh

theorem add_component_info_of_fresh (h : DatasetHandler) (c : String) (eps total : Int)
    (hdup : ¬ 0 ≤ find_component h c) (hmem : c ∈ h.dataset) :
    add_component_info h c eps total =
      (push_component h c eps total, check_uniform_integrity h.batch_size eps total) := by
  unfold add_component_info
  rw [if_neg hdup, if_pos hmem]
  rfl

theorem add_component_info_snd_none (h : DatasetHandler) (c : String) (eps total : Int)
    (hok : (add_component_info h c eps total).2 = none) :
    (add_component_info h c eps total).1 = push_component h c eps total ∧
      check_uniform_integrity h.batch_size eps total = none := by
  by_cases hdup : 0 ≤ find_component h c
  · exfalso
    unfold add_component_info at hok
    rw [if_pos hdup] at hok
    simp at hok
  · by_cases hmem : c ∈ h.dataset
    · rw [add_component_info_of_fresh h c eps total hdup hmem] at hok ⊢
      exact ⟨rfl, hok⟩
    · exfalso
      unfold add_component_info at hok
      rw [if_neg hdup, if_neg hmem] at hok
      simp at hok

theorem add_buffer_of_fresh_err (h : DatasetHandler) (c : String) (eps total : Int)
    (ip : Option (List Int)) (data : Option Int) (e : CallError)
    (hdup : ¬ 0 ≤ find_component h c) (hmem : c ∈ h.dataset)
    (hu : check_uniform_integrity h.batch_size eps total = none)
    (hch : check_non_uniform_integrity true h.batch_size eps total ip = some e) :
    add_buffer h c eps total ip data = (push_component h c eps total, some e) := by
  unfold add_buffer
  rw [add_component_info_of_fresh h c eps total hdup hmem, hu, hch]

theorem add_buffer_of_fresh_ok (h : DatasetHandler) (c : String) (eps total : Int)
    (ip : Option (List Int)) (data : Option Int)
    (hdup : ¬ 0 ≤ find_component h c) (hmem : c ∈ h.dataset)
    (hu : check_uniform_integrity h.batch_size eps total = none)
    (hch : check_non_uniform_integrity true h.batch_size eps total ip = none) :
    add_buffer h c eps total ip data =
      ({ h with
          component_info := h.component_info ++ [⟨c, eps, total⟩]
          buffers := h.buffers ++ [⟨data, stored_indptr h.batch_size ip⟩] },
       none) := by
  unfold add_buffer
  rw [add_component_info_of_fresh h c eps total hdup hmem, hu, hch]
  simp only [push_component, List.dropLast_concat]

theorem add_buffer_snd_none (h : DatasetHandler) (c : String) (eps total : Int)
    (ip : Option (List Int)) (data : Option Int)
    (hok : (add_buffer h c eps total ip data).2 = none) :
    ¬ 0 ≤ find_component h c ∧ c ∈ h.dataset ∧
      check_uniform_integrity h.batch_size eps total = none ∧
      check_non_uniform_integrity true h.batch_size eps total ip = none := by
  by_cases hdup : 0 ≤ find_component h c
  · exfalso
    unfold add_buffer add_component_info at hok
    rw [if_pos hdup] at hok
    simp at hok
  by_cases hmem : c ∈ h.dataset
  · unfold add_buffer at hok
    rw [add_component_info_of_fresh h c eps total hdup hmem] at hok
    cases hu : check_uniform_integrity h.batch_size eps total with
    | some e =>
      rw [hu] at hok
      simp at hok
    | none =>
      rw [hu] at hok
      cases hch : check_non_uniform_integrity true h.batch_size eps total ip with
      | some e =>
        rw [hch] at hok
        simp at hok
      | none => exact ⟨hdup, hmem, rfl, rfl⟩
  · exfalso
    unfold add_buffer add_component_info at hok
    rw [if_neg hdup, if_neg hmem] at hok
    simp at hok

end DatasetHandler



/-! ## Claims -/

namespace DatasetHandler

/-- Claim C10: the handler treats every negative `elements_per_scenario`
value, not only `-1`, as ragged layout: for any `elements_per_scenario < 0`
the uniform cardinality check (`total_elements == elements_per_scenario *
batch_size`) is skipped, `add_component_info` succeeds for any
`total_elements`, and `add_buffer`/`set_buffer` then require a non-null
offset index exactly as for `elements_per_scenario == -1`. -/
theorem C10_any_negative_eps_is_ragged (h : DatasetHandler) (c : String)
    (eps total : Int) (l : List Int) (data : Option Int) (idx : Nat)
    (heps : eps < 0) :
    check_uniform_integrity h.batch_size eps total = none ∧
    (c ∈ h.dataset → find_component h c = -1 →
      add_component_info h c eps total = (push_component h c eps total, none)) ∧
    (c ∈ h.dataset → find_component h c = -1 →
      (add_buffer h c eps total none data).2 =
        some (.datasetError "For a non-uniform buffer, indptr should be supplied !\n")) ∧
    (c ∈ h.dataset → find_component h c = -1 → l.getD 0 0 = 0 →
      l.getD h.batch_size.toNat 0 = total →
      (add_buffer h c eps total (some l) data).2 = none) ∧
    (find_component? h c = some idx →
      (h.component_info.getD idx default).elements_per_scenario = eps →
      (set_buffer h c none data).2 =
        some (.datasetError "For a non-uniform buffer, indptr should be supplied !\n")) := by
  have hnn : ¬ (0 ≤ eps) := not_le.mpr heps
  have hcu : check_uniform_integrity h.batch_size eps total = none := by
    simp [check_uniform_integrity, hnn]
  refine ⟨hcu, ?_, ?_, ?_, ?_⟩
  · intro hmem hfc
    have hdup : ¬ 0 ≤ find_component h c := by rw [hfc]; decide
    rw [add_component_info_of_fresh h c eps total hdup hmem, hcu]
  · intro hmem hfc
    have hdup : ¬ 0 ≤ find_component h c := by rw [hfc]; decide
    have hch : check_non_uniform_integrity true h.batch_size eps total none =
        some (.datasetError "For a non-uniform buffer, indptr should be supplied !\n") := by
      simp [check_non_uniform_integrity, heps]
    rw [add_buffer_of_fresh_err h c eps total none data _ hdup hmem hcu hch]
  · intro hmem hfc hl0 hlb
    have hdup : ¬ 0 ≤ find_component h c := by rw [hfc]; decide
    have hch : check_non_uniform_integrity true h.batch_size eps total (some l) = none := by
      rw [List.getD_eq_getElem?_getD] at hl0 hlb
      simp [check_non_uniform_integrity, heps, hl0, hlb]
    rw [add_buffer_of_fresh_ok h c eps total (some l) data hdup hmem hcu hch]
  · intro hf hinfo
    unfold set_buffer
    rw [hf]
    rw [List.getD_eq_getElem?_getD] at hinfo
    simp [check_non_uniform_integrity, hinfo, heps]

/-- Claim C10 witness: with `elements_per_scenario = -2` (negative but not
`-1`), a ragged `add_buffer` with a well-formed offset index succeeds. -/
theorem C10_witness : (add_buffer hAB "A" (-2) 5 (some [0, 3, 5]) (some 100)).2 = none := by
  have hstep :=
    (C10_any_negative_eps_is_ragged hAB "A" (-2) 5 [0, 3, 5] (some 100) 0
      (by decide)).2.2.2.1 (by decide) (by decide) (by decide) (by decide)
  exact hstep



/-- Claim C5: for every already-attached component, `set_buffer` (the
Writable two-phase path) validates only the presence/absence of the offset
index against the `elements_per_scenario` fixed at `add_component_info`
time — a null index for a ragged component fails with DatasetError, a
non-null index for a uniform component fails with DatasetError — and it
does not check the offset index's contents: for a ragged component it
succeeds for every supplied index list `l`, in particular when
`l[0] ≠ 0` or `l[batch_size] ≠ total_elements`. -/
theorem C5_set_buffer_presence_only (h : DatasetHandler) (c : String) (idx : Nat)
    (l : List Int) (data : Option Int)
    (hf : find_component? h c = some idx) :
    ((h.component_info.getD idx default).elements_per_scenario < 0 →
      set_buffer h c none data =
        (h, some (.datasetError "For a non-uniform buffer, indptr should be supplied !\n"))) ∧
    (0 ≤ (h.component_info.getD idx default).elements_per_scenario →
      set_buffer h c (some l) data =
        (h, some (.datasetError "For a uniform buffer, indptr should be nullptr !\n"))) ∧
    ((h.component_info.getD idx default).elements_per_scenario < 0 →
      set_buffer h c (some l) data =
        ({ h with buffers := h.buffers.set idx ⟨data, stored_indptr h.batch_size (some l)⟩ },
         none)) := by
  refine ⟨?_, ?_, ?_⟩ <;> intro heps <;> rw [List.getD_eq_getElem?_getD] at heps <;>
    unfold set_buffer <;> rw [hf] <;>
    simp [check_non_uniform_integrity, heps, not_lt.mpr, not_lt_of_le]

/-- Claim C5 witness: on a handler with ragged component "A"
(`elements_per_scenario = -1`, `total_elements = 5`, batch size 2),
`set_buffer` succeeds with the offset index `[1, 9, 7]`, whose first
element is not 0 and whose element at `batch_size` is not
`total_elements`. -/
theorem C5_witness :
    (set_buffer (add_component_info hAB "A" (-1) 5).1 "A" (some [1, 9, 7]) (some 100)).2 =
      none := by
  have hthm :=
    (C5_set_buffer_presence_only (add_component_info hAB "A" (-1) 5).1 "A" 0 [1, 9, 7]
      (some 100) (by decide)).2.2 (by decide)
  rw [hthm]


/-- Claim C2: for every handler and every component name known to its
dataset kind, `add_component_info(component, elements_per_scenario,
total_elements)` with `elements_per_scenario >= 0` succeeds if and only if
the component was not attached before and `total_elements =
elements_per_scenario * batch_size`; a duplicate name or a cardinality
mismatch fails with DatasetError; and a successful attach appends its
entry after the existing ones, preserving attach order in
`get_description().component_info`. -/
theorem C2_add_component_info_characterization (h : DatasetHandler) (c : String)
    (eps total : Int) (hmem : c ∈ h.dataset) (heps : 0 ≤ eps) :
    ((add_component_info h c eps total).2 = none ↔
      (find_component h c = -1 ∧ total = eps * h.batch_size)) ∧
    (∀ e, (add_component_info h c eps total).2 = some e →
      ∃ msg, e = CallError.datasetError msg) ∧
    ((add_component_info h c eps total).2 = none →
      (get_description (add_component_info h c eps total).1).component_info =
        (get_description h).component_info ++ [⟨c, eps, total⟩]) := by
  by_cases hdup : 0 ≤ find_component h c
  · unfold add_component_info
    rw [if_pos hdup]
    refine ⟨?_, ?_, ?_⟩
    · constructor
      · intro hco
        simp at hco
      · rintro ⟨hfc, -⟩
        exfalso
        rw [hfc] at hdup
        exact absurd hdup (by decide)
    · intro e he
      simp only [Option.some_inj] at he
      exact ⟨_, he.symm⟩
    · intro hco
      simp at hco
  · rw [add_component_info_of_fresh h c eps total hdup hmem]
    have hfc : find_component h c = -1 := by
      rcases hv : find_component? h c with _ | i
      · rw [find_component_eq_neg_one_iff]
        exact hv
      · exfalso
        apply hdup
        rw [find_component_nonneg_iff, hv]
        rfl
    refine ⟨?_, ?_, ?_⟩
    · show check_uniform_integrity h.batch_size eps total = none ↔ _
      constructor
      · intro hco
        refine ⟨hfc, ?_⟩
        unfold check_uniform_integrity at hco
        by_cases hne : eps * h.batch_size = total
        · exact hne.symm
        · rw [if_pos ⟨heps, hne⟩] at hco
          simp at hco
      · rintro ⟨-, htot⟩
        unfold check_uniform_integrity
        rw [if_neg]
        rintro ⟨-, hne⟩
        exact hne htot.symm
    · intro e he
      replace he : check_uniform_integrity h.batch_size eps total = some e := he
      unfold check_uniform_integrity at he
      by_cases hcond : 0 ≤ eps ∧ eps * h.batch_size ≠ total
      · rw [if_pos hcond] at he
        simp only [Option.some_inj] at he
        exact ⟨_, he.symm⟩
      · rw [if_neg hcond] at he
        simp at he
    · intro _
      simp [get_description, push_component]

/-- Claim C2 witness: on the fresh batch handler (batch size 2), attaching
"A" with `elements_per_scenario = 1` and `total_elements = 2` succeeds. -/
theorem C2_witness : (add_component_info hAB "A" 1 2).2 = none :=
  ((C2_add_component_info_characterization hAB "A" 1 2 (by decide) (by decide)).1).mpr
    ⟨by decide, by decide⟩


/-- Claim C3: for every `add_buffer` call (on a fresh, known component
name): with `elements_per_scenario = -1` a null offset index fails with
DatasetError, and a supplied offset index whose first element is not 0 or
whose element at position `batch_size` is not `total_elements` fails with
DatasetError; with `elements_per_scenario >= 0` a non-null offset index
fails with DatasetError; otherwise (ragged with a well-formed index) the
buffer is stored with an offset-index span of length `batch_size + 1`. -/
theorem C3_add_buffer_offset_index_rules (h : DatasetHandler) (c : String)
    (eps total : Int) (l : List Int) (data : Option Int)
    (hmem : c ∈ h.dataset) (hfc : find_component h c = -1) (_hbs : 0 ≤ h.batch_size) :
    ((add_buffer h c (-1) total none data).2 =
      some (.datasetError "For a non-uniform buffer, indptr should be supplied !\n")) ∧
    ((l.getD 0 0 ≠ 0 ∨ l.getD h.batch_size.toNat 0 ≠ total) →
      (add_buffer h c (-1) total (some l) data).2 =
        some (.datasetError
          "For a non-uniform buffer, indptr should begin with 0 and end with total_elements !\n")) ∧
    (0 ≤ eps →
      (add_buffer h c eps (eps * h.batch_size) (some l) data).2 =
        some (.datasetError "For a uniform buffer, indptr should be nullptr !\n")) ∧
    (l.getD 0 0 = 0 → l.getD h.batch_size.toNat 0 = total →
      h.batch_size.toNat + 1 ≤ l.length →
      (add_buffer h c (-1) total (some l) data).2 = none ∧
      ∃ b : Buffer,
        (add_buffer h c (-1) total (some l) data).1.buffers.getLast? = some b ∧
        b.indptr = some (l.take (h.batch_size.toNat + 1)) ∧
        (l.take (h.batch_size.toNat + 1)).length = h.batch_size.toNat + 1) := by
  have hdup : ¬ 0 ≤ find_component h c := by rw [hfc]; decide
  have hcu : check_uniform_integrity h.batch_size (-1) total = none := by
    norm_num [check_uniform_integrity]
  refine ⟨?_, ?_, ?_, ?_⟩
  · have hch : check_non_uniform_integrity true h.batch_size (-1) total none =
        some (.datasetError "For a non-uniform buffer, indptr should be supplied !\n") := by
      norm_num [check_non_uniform_integrity]
    rw [add_buffer_of_fresh_err h c (-1) total none data _ hdup hmem hcu hch]
  · intro hd
    have hch : check_non_uniform_integrity true h.batch_size (-1) total (some l) =
        some (.datasetError
          "For a non-uniform buffer, indptr should begin with 0 and end with total_elements !\n") := by
      unfold check_non_uniform_integrity
      rw [if_pos (by norm_num : (-1 : Int) < 0)]
      exact if_pos ⟨rfl, hd⟩
    rw [add_buffer_of_fresh_err h c (-1) total (some l) data _ hdup hmem hcu hch]
  · intro heps
    have hcu2 : check_uniform_integrity h.batch_size eps (eps * h.batch_size) = none := by
      simp [check_uniform_integrity]
    have hch : check_non_uniform_integrity true h.batch_size eps (eps * h.batch_size) (some l) =
        some (.datasetError "For a uniform buffer, indptr should be nullptr !\n") := by
      unfold check_non_uniform_integrity
      rw [if_neg (not_lt.mpr heps)]
    rw [add_buffer_of_fresh_err h c eps (eps * h.batch_size) (some l) data _ hdup hmem hcu2 hch]
  · intro hl0 hlb hlen
    have hch : check_non_uniform_integrity true h.batch_size (-1) total (some l) = none := by
      rw [List.getD_eq_getElem?_getD] at hl0 hlb
      norm_num [check_non_uniform_integrity, hl0, hlb]
    rw [add_buffer_of_fresh_ok h c (-1) total (some l) data hdup hmem hcu hch]
    refine ⟨rfl, ⟨data, stored_indptr h.batch_size (some l)⟩, ?_, ?_, ?_⟩
    · simp [List.getLast?_concat]
    · simp [stored_indptr]
    · simp only [List.length_take]
      omega

/-- Claim C3 witness: a ragged `add_buffer` (batch size 2) with offset
index `[0, 3, 5]` and `total_elements = 5` succeeds and stores an
offset-index span of length `batch_size + 1 = 3`. -/
theorem C3_witness :
    (add_buffer hAB "A" (-1) 5 (some [0, 3, 5]) (some 100)).2 = none ∧
    ([(0 : Int), 3, 5].take 3).length = 3 := by
  have hstep :=
    (C3_add_buffer_offset_index_rules hAB "A" 0 5 [0, 3, 5] (some 100)
      (by decide) (by decide) (by decide)).2.2.2 (by decide) (by decide) (by decide)
  exact ⟨hstep.1, by decide⟩


/-- Claim C1 counterexample: the claim "whenever the call fails with an
error, the handler's observable state is exactly what it was before the
call; in particular an `add_component_info` call that fails the uniform
cardinality check leaves no ComponentInfo entry behind" is false: on the
fresh batch handler (batch size 2), `add_component_info("A", 1, 1)` fails
the cardinality check (`1 * 2 ≠ 1`) yet leaves the appended ComponentInfo
entry (and an empty buffer slot) behind. -/
theorem C1_counterexample :
    (add_component_info hAB "A" 1 1).2.isSome = true ∧
    (add_component_info hAB "A" 1 1).1 ≠ hAB ∧
    n_components (add_component_info hAB "A" 1 1).1 = 1 ∧
    n_components hAB = 0 := by
  decide

/-- Claim C1 (amended): `set_buffer` is atomic (any failure leaves the
handler unchanged), and `add_component_info`/`add_buffer` failing the
duplicate-name or unknown-name check leave the handler unchanged; but an
`add_component_info` call that fails the uniform cardinality check — and an
`add_buffer` call that fails the offset-index presence/content check —
first appends the new ComponentInfo entry and an empty Buffer slot, and
these remain observable after the error. -/
theorem C1_atomicity_amended (h : DatasetHandler) (c : String) (eps total : Int)
    (ip : Option (List Int)) (data : Option Int) :
    ((set_buffer h c ip data).2.isSome → (set_buffer h c ip data).1 = h) ∧
    (0 ≤ find_component h c → (add_component_info h c eps total).1 = h) ∧
    (¬ 0 ≤ find_component h c → c ∉ h.dataset → (add_component_info h c eps total).1 = h) ∧
    (find_component h c = -1 → c ∈ h.dataset → (add_component_info h c eps total).2.isSome →
      (add_component_info h c eps total).1 = push_component h c eps total ∧
      (add_component_info h c eps total).1 ≠ h) ∧
    (find_component h c = -1 → c ∈ h.dataset →
      check_uniform_integrity h.batch_size eps total = none →
      (check_non_uniform_integrity true h.batch_size eps total ip).isSome →
      (add_buffer h c eps total ip data).1 = push_component h c eps total) := by
  refine ⟨?_, ?_, ?_, ?_, ?_⟩
  · intro hs
    cases hf : find_component? h c with
    | none =>
      unfold set_buffer
      rw [hf]
    | some i =>
      unfold set_buffer at hs ⊢
      rw [hf] at hs ⊢
      cases hch : check_non_uniform_integrity false h.batch_size
          (h.component_info.getD i default).elements_per_scenario
          (h.component_info.getD i default).total_elements ip with
      | some e =>
        rw [List.getD_eq_getElem?_getD] at hch
        simp [hch]
      | none =>
        rw [List.getD_eq_getElem?_getD] at hch
        simp [hch] at hs
  · intro hdup
    unfold add_component_info
    rw [if_pos hdup]
  · intro hdup hnotmem
    unfold add_component_info
    rw [if_neg hdup, if_neg hnotmem]
  · intro hfc hmem _hsome
    have hdup : ¬ 0 ≤ find_component h c := by rw [hfc]; decide
    rw [add_component_info_of_fresh h c eps total hdup hmem]
    refine ⟨rfl, ?_⟩
    intro heq
    have hlen := congrArg (fun x => x.component_info.length) heq
    simp [push_component] at hlen
  · intro hfc hmem hcu hchsome
    have hdup : ¬ 0 ≤ find_component h c := by rw [hfc]; decide
    rcases Option.isSome_iff_exists.mp hchsome with ⟨e, hch⟩
    rw [add_buffer_of_fresh_err h c eps total ip data e hdup hmem hcu hch]

/-- Claim C1 witness: the non-atomic failure is observable at a concrete
input: the failing `add_component_info("A", 1, 1)` leaves the pushed
state. -/
theorem C1_witness :
    (add_component_info hAB "A" 1 1).1 = push_component hAB "A" 1 1 ∧
    (add_component_info hAB "A" 1 1).1 ≠ hAB :=
  (C1_atomicity_amended hAB "A" 1 1 none none).2.2.2.1 (by decide) (by decide) (by decide)


/-- Claim C9 counterexample: `get_component_info(Idx)` applied to an absent
index does not fail with DatasetError: on the fresh handler (no components
attached) index 0 is absent, yet `get_component_info(0)` is a plain
unchecked `std::vector` access (undefined behaviour), not a thrown
DatasetError. -/
theorem C9_counterexample :
    n_components hAB = 0 ∧
    get_component_info_at hAB 0 = CxxResult.ub ∧
    (get_component_info_at hAB 0).isDatasetError = false := by
  decide

/-- Claim C9 (amended): `find_component(name)` returns the attach-order
index (the first position holding the name) when the component is
attached; when absent it returns the sentinel `-1` if `throw_on_missing`
is false and fails with DatasetError if `throw_on_missing` is true, and
`get_component_info` by *name* on an absent component fails with
DatasetError; but `get_component_info` by *index* performs unchecked
vector indexing, so an out-of-range index is undefined behaviour, not a
DatasetError. -/
theorem C9_component_lookup_amended (h : DatasetHandler) (c : String) (i : Nat) (j : Int) :
    (find_component? h c = some i →
      find_component h c = (i : Int) ∧
      i < h.component_info.length ∧
      (h.component_info.getD i default).component = c ∧
      (∀ k, k < i → (h.component_info.getD k default).component ≠ c) ∧
      find_component_or_throw h c = .ok (i : Int)) ∧
    (find_component? h c = none →
      find_component h c = -1 ∧
      find_component_or_throw h c = .exn (.datasetError "Cannot find component!\n") ∧
      get_component_info_name h c = .exn (.datasetError "Cannot find component!\n")) ∧
    (¬ (0 ≤ j ∧ j.toNat < h.component_info.length) → get_component_info_at h j = .ub) := by
  refine ⟨?_, ?_, ?_⟩
  · intro hf
    have hiff := List.findIdx?_eq_some_iff_findIdx_eq.mp hf
    rcases hiff with ⟨hlt, hidx⟩
    refine ⟨by simp [find_component, hf], hlt, ?_, ?_, by simp [find_component_or_throw, hf]⟩
    · have hp : (fun ci : ComponentInfo => ci.component == c)
          (h.component_info.getD i default) = true := by
        rw [List.getD_eq_getElem h.component_info default hlt]
        have hw : h.component_info.findIdx (fun ci => ci.component == c) <
            h.component_info.length := by rw [hidx]; exact hlt
        have := List.findIdx_getElem (w := hw)
        simpa [hidx] using this
      simpa using hp
    · intro k hk
      have hkl : k < h.component_info.length := lt_trans hk hlt
      have hp : (fun ci : ComponentInfo => ci.component == c) h.component_info[k] = false :=
        List.not_of_lt_findIdx (by rw [hidx]; exact hk)
      rw [List.getD_eq_getElem h.component_info default hkl]
      simpa using hp
  · intro hn
    exact ⟨by simp [find_component, hn], by simp [find_component_or_throw, hn],
      by simp [get_component_info_name, hn]⟩
  · intro hj
    unfold get_component_info_at
    rw [if_neg hj]

/-- Claim C9 witness: on a handler with "A" attached at index 0,
`find_component("A")` is 0, and the unchecked by-index access at the
out-of-range index 5 is undefined behaviour. -/
theorem C9_witness :
    find_component (add_component_info hAB "A" 1 2).1 "A" = 0 ∧
    get_component_info_at (add_component_info hAB "A" 1 2).1 5 = CxxResult.ub := by
  have h1 :=
    ((C9_component_lookup_amended (add_component_info hAB "A" 1 2).1 "A" 0 5).1 (by decide)).1
  have h3 :=
    (C9_component_lookup_amended (add_component_info hAB "A" 1 2).1 "A" 0 5).2.2 (by decide)
  exact ⟨h1, h3⟩


/-- Claim C4: for every attached uniform component with
`elements_per_scenario = e` and every scenario `s` in `[0, batch_size)`,
`get_buffer_span(s)` is the slice of the component's data buffer starting
at element offset `s*e` with length `e`; for every attached ragged
component with offset index `idx`, `get_buffer_span(s)` is the slice
starting at element offset `idx[s]` with length `idx[s+1] - idx[s]`.
(`get_buffer_span` itself lives in `dataset.hpp`, outside the source
excerpt, and is modelled from the spec; the attach is by the excerpt's
`add_buffer`.) -/
theorem C4_get_buffer_span_slices (h : DatasetHandler) (c : String)
    (e total : Int) (l : List Int) (data : Option Int) (s : Nat)
    (hwf : h.buffers.length = h.component_info.length)
    (hs : s < h.batch_size.toNat) :
    (0 ≤ e → (add_buffer h c e total none data).2 = none →
      get_buffer_span (add_buffer h c e total none data).1 h.component_info.length s =
        ((s : Int) * e, e)) ∧
    ((add_buffer h c (-1) total (some l) data).2 = none →
      get_buffer_span (add_buffer h c (-1) total (some l) data).1 h.component_info.length s =
        (l.getD s 0, l.getD (s + 1) 0 - l.getD s 0)) := by
  constructor
  · intro he hok
    obtain ⟨hdup, hmem, hcu, hch⟩ := add_buffer_snd_none h c e total none data hok
    rw [add_buffer_of_fresh_ok h c e total none data hdup hmem hcu hch]
    have hinfo : (h.component_info ++ [(⟨c, e, total⟩ : ComponentInfo)]).getD
        h.component_info.length default = ⟨c, e, total⟩ := by
      rw [List.getD_eq_getElem?_getD, List.getElem?_concat_length]
      rfl
    simp only [get_buffer_span, hinfo]
    rw [if_pos he]
  · intro hok
    obtain ⟨hdup, hmem, hcu, hch⟩ := add_buffer_snd_none h c (-1) total (some l) data hok
    rw [add_buffer_of_fresh_ok h c (-1) total (some l) data hdup hmem hcu hch]
    have hinfo : (h.component_info ++ [(⟨c, -1, total⟩ : ComponentInfo)]).getD
        h.component_info.length default = ⟨c, -1, total⟩ := by
      rw [List.getD_eq_getElem?_getD, List.getElem?_concat_length]
      rfl
    have hbuf : (h.buffers ++ [(⟨data, stored_indptr h.batch_size (some l)⟩ : Buffer)]).getD
        h.component_info.length default = ⟨data, stored_indptr h.batch_size (some l)⟩ := by
      rw [List.getD_eq_getElem?_getD, ← hwf, List.getElem?_concat_length]
      rfl
    have htake : ∀ (i : Nat), i < h.batch_size.toNat + 1 →
        (l.take (h.batch_size.toNat + 1)).getD i 0 = l.getD i 0 := by
      intro i hi
      rw [List.getD_eq_getElem?_getD, List.getD_eq_getElem?_getD, List.getElem?_take,
        if_pos hi]
    simp only [get_buffer_span, hinfo, hbuf]
    rw [if_neg (by norm_num)]
    simp only [stored_indptr, Option.map_some']
    rw [htake s (by omega), htake (s + 1) (by omega)]

/-- Claim C4 witness: in the uniform case (e = 2, batch size 2) scenario 1
starts at offset 2 with length 2; in the ragged case with offset index
`[0, 3, 5]` scenario 1 starts at offset 3 with length 2. -/
theorem C4_witness :
    get_buffer_span (add_buffer hAB "A" 2 4 none (some 100)).1 hAB.component_info.length 1 =
      (2, 2) ∧
    get_buffer_span (add_buffer hAB "B" (-1) 5 (some [0, 3, 5]) (some 200)).1
      hAB.component_info.length 1 = (3, 2) := by
  have h1 :=
    (C4_get_buffer_span_slices hAB "A" 2 4 [] (some 100) 1 (by decide) (by decide)).1
      (by decide) (by decide)
  have h2 :=
    (C4_get_buffer_span_slices hAB "B" 0 5 [0, 3, 5] (some 200) 1 (by decide) (by decide)).2
      (by decide)
  refine ⟨?_, ?_⟩
  · rw [h1]
    decide
  · rw [h2]
    decide

/-- Claim C6: `get_buffer_span_all_scenarios()` returns a sequence of
length `batch_size` whose `s`-th element has the same start and the same
length as `get_buffer_span(s)`, for every `s` in `[0, batch_size)`.
(Both accessors live in `dataset.hpp`, outside the source excerpt, and
are modelled from the spec.) -/
theorem C6_all_scenarios_agree (h : DatasetHandler) (i : Nat) (hbs : 0 ≤ h.batch_size) :
    ((get_buffer_span_all_scenarios h i).length : Int) = h.batch_size ∧
    ∀ s, s < h.batch_size.toNat →
      (get_buffer_span_all_scenarios h i).getD s (0, 0) = get_buffer_span h i s := by
  constructor
  · simp [get_buffer_span_all_scenarios, Int.toNat_of_nonneg hbs]
  · intro s hs
    unfold get_buffer_span_all_scenarios
    have hlen : s < ((List.range h.batch_size.toNat).map
        (fun s => get_buffer_span h i s)).length := by
      simpa using hs
    rw [List.getD_eq_getElem _ _ hlen, List.getElem_map, List.getElem_range]

/-- Claim C6 witness: on the fixture batch handler, the all-scenarios list
agrees with the single-scenario accessor at scenario 1 for the uniform
component "A". -/
theorem C6_witness :
    (get_buffer_span_all_scenarios hBatch 0).getD 1 (0, 0) = get_buffer_span hBatch 0 1 :=
  (C6_all_scenarios_agree hBatch 0 (by decide)).2 1 (by decide)


/-- Claim C7: for every batch handler and every scenario `s` in
`[0, batch_size)`, `get_individual_scenario(s)` returns a non-batch
handler with `batch_size = 1` and the same number of components, where for
every attached component the single-scenario span has the same start and
the same length as the source handler's `get_buffer_span(s)`, each
component's `elements_per_scenario` equals `total_elements` equals that
span's length, and no element data is copied: the scenario handler's data
pointer is the source pointer advanced to the span start, into the same
underlying array. (`get_individual_scenario` lives in `dataset.hpp`,
outside the source excerpt, and is modelled from the spec; span lengths
are nonnegative for any handler whose ragged offset indexes are monotone,
which is the documented caller precondition.) -/
theorem C7_individual_scenario (h : DatasetHandler) (s : Nat)
    (hwf : h.buffers.length = h.component_info.length)
    (_hs : s < h.batch_size.toNat)
    (hnn : ∀ i, i < h.component_info.length → 0 ≤ (get_buffer_span h i s).2) :
    (get_individual_scenario h s).is_batch = false ∧
    (get_individual_scenario h s).batch_size = 1 ∧
    n_components (get_individual_scenario h s) = n_components h ∧
    ∀ i, i < h.component_info.length →
      span_start (get_individual_scenario h s) i 0 = span_start h i s ∧
      (get_buffer_span (get_individual_scenario h s) i 0).2 = (get_buffer_span h i s).2 ∧
      ((get_individual_scenario h s).component_info.getD i default).elements_per_scenario =
        (get_buffer_span h i s).2 ∧
      ((get_individual_scenario h s).component_info.getD i default).total_elements =
        (get_buffer_span h i s).2 ∧
      ((get_individual_scenario h s).buffers.getD i default).data =
        ((h.buffers.getD i default).data).map (fun b => b + (get_buffer_span h i s).1) := by
  refine ⟨rfl, rfl, ?_, ?_⟩
  · simp [n_components, get_individual_scenario, hwf]
  · intro i hi
    have hci : (get_individual_scenario h s).component_info.getD i default =
        ⟨(h.component_info.getD i default).component, (get_buffer_span h i s).2,
          (get_buffer_span h i s).2⟩ := by
      unfold get_individual_scenario
      rw [List.getD_eq_getElem _ _ (by simpa using hi), List.getElem_map, List.getElem_range]
    have hbi : (get_individual_scenario h s).buffers.getD i default =
        ⟨((h.buffers.getD i default).data).map (fun b => b + (get_buffer_span h i s).1),
          none⟩ := by
      unfold get_individual_scenario
      rw [List.getD_eq_getElem _ _ (by simpa using hi), List.getElem_map, List.getElem_range]
    have hspan : get_buffer_span (get_individual_scenario h s) i 0 =
        (0, (get_buffer_span h i s).2) := by
      conv_lhs => unfold get_buffer_span
      rw [hci, if_pos (hnn i hi)]
      norm_num
    refine ⟨?_, by rw [hspan], by rw [hci], by rw [hci], by rw [hbi]⟩
    unfold span_start
    rw [hbi, hspan]
    cases hd : (h.buffers.getD i default).data with
    | none => simp
    | some b => simp

/-- Claim C7 witness: on the fixture batch handler (uniform "A", ragged
"B"), the scenario-1 handler is batch size 1 and the ragged component "B"
keeps the same span start without copying. -/
theorem C7_witness :
    (get_individual_scenario hBatch 1).batch_size = 1 ∧
    span_start (get_individual_scenario hBatch 1) 1 0 = span_start hBatch 1 1 := by
  have hthm := C7_individual_scenario hBatch 1 (by decide) (by decide) (by decide)
  exact ⟨hthm.2.1, (hthm.2.2.2 1 (by decide)).1⟩

end DatasetHandler


/-! ## Columnar overlay claims -/

namespace RangeObject

theorem lookup_map_column (f : String → List AttrValue → List AttrValue) (a : String) :
    ∀ (l : List (String × List AttrValue)),
      (l.map (fun p => (p.1, f p.1 p.2))).lookup a = (l.lookup a).map (f a) := by
  intro l
  induction l with
  | nil => rfl
  | cons p t ih =>
    rcases p with ⟨k, v⟩
    cases hak : a == k with
    | true =>
      have hk : a = k := by simpa using hak
      subst hk
      simp [List.lookup]
    | false =>
      simp [List.lookup, hak, ih]

theorem mem_of_lookup_eq_some {l : List (String × List AttrValue)} {a : String}
    {col : List AttrValue} (h : l.lookup a = some col) : (a, col) ∈ l := by
  induction l with
  | nil => simp [List.lookup] at h
  | cons p t ih =>
    rcases p with ⟨k, v⟩
    cases hak : a == k with
    | true =>
      have hk : a = k := by simpa using hak
      subst hk
      simp [List.lookup, hak] at h
      subst h
      exact List.mem_cons_self _ _
    | false =>
      simp [List.lookup, hak] at h
      exact List.mem_cons_of_mem _ (ih h)

/-- Claim C8: columnar-overlay round-trip, modelled from the spec (the
range object lives in `dataset.hpp`/`buffer.hpp`, outside the source
excerpt): for every mutable overlay over attached attribute columns, every
index `i` in `[0, n)` and every logical record value `v`, assigning `v`
through the Proxy at `i` and then reading index `i` yields a record whose
every attached attribute equals the corresponding field of `v` and whose
every non-attached attribute is not-a-value; the assignment keeps the set
of attached columns unchanged and leaves every other index unchanged (and
attributes without an attached column have no underlying array in the
overlay at all, so their storage is untouched by construction). -/
theorem C8_overlay_roundtrip (ro : RangeObject) (i : Nat) (v : String → AttrValue)
    (hwf : ro.WF) (hi : i < ro.n) :
    (∀ a, (ro.write_record i v).attached a = ro.attached a) ∧
    (∀ a, ro.attached a = true → (ro.write_record i v).read_record i a = v a) ∧
    (∀ a, ro.attached a = false → (ro.write_record i v).read_record i a = none) ∧
    (∀ j a, j ≠ i → (ro.write_record i v).read_record j a = ro.read_record j a) := by
  have hmap : ∀ a, ((ro.arrays.map (fun p => (p.1, p.2.set i (v p.1)))).lookup a) =
      (ro.arrays.lookup a).map (fun col => col.set i (v a)) := by
    intro a
    exact lookup_map_column (fun k col => col.set i (v k)) a ro.arrays
  refine ⟨?_, ?_, ?_, ?_⟩
  · intro a
    simp only [write_record, attached, hmap]
    cases ro.arrays.lookup a <;> rfl
  · intro a ha
    rcases Option.isSome_iff_exists.mp ha with ⟨col, hcol⟩
    have hlen : col.length = ro.n := hwf _ (mem_of_lookup_eq_some hcol)
    simp only [write_record, read_record, hmap, hcol, Option.map_some']
    rw [List.getD_eq_getElem?_getD, List.getElem?_set_eq_of_lt _ (by rw [hlen]; exact hi)]
    rfl
  · intro a ha
    have hnone : ro.arrays.lookup a = none := by
      unfold attached at ha
      cases hl : ro.arrays.lookup a with
      | none => rfl
      | some col =>
        rw [hl] at ha
        simp at ha
    simp only [write_record, read_record, hmap, hnone, Option.map_none']
  · intro j a hj
    simp only [write_record, read_record, hmap]
    cases hl : ro.arrays.lookup a with
    | none => rfl
    | some col =>
      simp only [Option.map_some']
      rw [List.getD_eq_getElem?_getD, List.getD_eq_getElem?_getD,
        List.getElem?_set_ne (by omega)]

/-- Claim C8 witness: on the fixture overlay (columns "a1" and "id"
attached, "a0" absent), writing the record `{id = 20, a0 = -10, a1 = NA}`
at index 1 reads back `id = 20` and `a0 = not-a-value`. -/
theorem C8_witness :
    (roAB.write_record 1 vFix).read_record 1 "id" = vFix "id" ∧
    (roAB.write_record 1 vFix).read_record 1 "a0" = none := by
  have hthm := C8_overlay_roundtrip roAB 1 vFix (by unfold WF; decide) (by decide)
  exact ⟨hthm.2.1 "id" (by decide), hthm.2.2.1 "a0" (by decide)⟩

end RangeObject

end PowerGridModel